import Mathlib

/-!
Verification development for the Tabor Systems Telegram bot (`src/app.py`).

The file shallowly embeds the two components the specification describes:
the Completion Gateway (`generate_response_with_retry`) and the Dialogue
Router's callback handler (`handle_callback`), and proves the spec's claims
about them.

The behaviour of the external Gemini client on each zero-based attempt is
modelled by a function `Nat → AttemptOutcome`; the Python `try` body either
returns a response object (whose `.text` may be falsy/empty), raises
`ResourceExhaustedError`, raises `APIError e`, or raises any other exception.
Side effects are made explicit: the result records how many underlying calls
were made and the list of `time.sleep` durations, in order.
-/

namespace ForBot

/-- Constant `LANG_AMHARIC` from app.py line 20. -/
def LANG_AMHARIC : String := "AM"

/-- Constant `LANG_ENGLISH` from app.py line 21. -/
def LANG_ENGLISH : String := "EN"

/-- Constant `ACTION_ABOUT` from app.py line 22. -/
def ACTION_ABOUT : String := "ABOUT_CH"

/-- Constant `MAX_RETRIES` from app.py line 23. -/
def MAX_RETRIES : Nat := 3

/-- Fallback returned when the Gemini model was never configured (app.py line 65). -/
def configError_msg : String :=
  "🛑 ERROR: Gemini API key is missing or invalid. Please check the server configuration."

/-- Fallback returned on `ResourceExhaustedError` (app.py line 76). -/
def quota_msg : String :=
  "ይቅርታ፣ የቦቱ የዕለታዊ የአጠቃቀም ገደብ ስለተሟላ መልስ መስጠት አልቻልኩም። (Sorry, the bot\x27s daily usage limit has been met.)"

/-- Fallback returned when the APIError text contains "API key not valid" (app.py line 81). -/
def invalidKey_msg : String :=
  "⚠️ ይቅርታ፣ ያገለገሉት ቁልፍ (API Key) ልክ አይደለም። እባክዎ የአገልግሎት ሰጪውን Environment Variables በትክክል ያረጋግጡ።"

/-- Fallback returned after exhausting retries on a general APIError (app.py line 87). -/
def techIssue_msg : String :=
  "ይቅርታ፣ በኔትወርክ ወይም በቴክኒካዊ ችግር ምክንያት ምላሽ መስጠት አልቻልኩም። (Sorry, failed to respond due to a technical issue.)"

/-- Fallback returned after exhausting retries on any other exception (app.py line 94). -/
def unknownError_msg : String :=
  "ይቅርታ፣ ያልታወቀ ግንኙነት መቋረጥ አጋጥሟል። (Sorry, an unknown connection error occurred.)"

/-- Defensive fallback after the `for` loop completes without returning (app.py line 95). -/
def allFailed_msg : String :=
  "ይቅርታ፣ የመልስ ሙከራው ሁሉ አልተሳካም።"

/-- Checks that the character list `p` matches the front of `s`. -/
def leadMatch : List Char → List Char → Bool
  | [], _ => true
  | _ :: _, [] => false
  | p :: ps, c :: cs => p = c && leadMatch ps cs

/-- Checks that the character list `pat` occurs contiguously inside `s`. -/
def occursIn (pat : List Char) : List Char → Bool
  | [] => leadMatch pat []
  | c :: cs => leadMatch pat (c :: cs) || occursIn pat cs

/-- Embedding of Python's substring test `pat in s` on strings. -/
def containsSubstring (s pat : String) : Bool :=
  occursIn pat.data s.data

/-- Outcome of one call `model.generate_content(prompt)` inside the `try` body:
a response whose `.text` is the given string (a falsy/absent text is modelled
as `""`), a raised `ResourceExhaustedError`, a raised `APIError` carrying its
error text, or any other raised exception. -/
inductive AttemptOutcome where
  | success (text : String)
  | resourceExhausted
  | apiError (errText : String)
  | otherError
deriving DecidableEq, Repr

/-- State produced by the `for attempt in range(MAX_RETRIES)` loop of
`generate_response_with_retry`: `retVal = some s` when some iteration executed
`return s`, `retVal = none` when the loop ran out of iterations; `calls` counts
invocations of `model.generate_content`; `sleeps` lists the `time.sleep`
durations in order. -/
structure LoopResult where
  retVal : Option String
  calls : Nat
  sleeps : List Nat
deriving DecidableEq, Repr

/-- Embedding of the `for attempt in range(MAX_RETRIES)` loop body of
`generate_response_with_retry` (app.py lines 67-94), starting at iteration
`attempt` with `rem` iterations remaining. An empty `.text` raises a generic
`Exception` (line 72), which Python dispatches to the final `except Exception`
clause, not to the `APIError` clause. Logging calls are ignored. -/
def runAttempts (client : Nat → AttemptOutcome) : Nat → Nat → LoopResult
  | _, 0 => ⟨none, 0, []⟩
  | attempt, rem + 1 =>
    match client attempt with
    | .success t =>
      if t = "" then
        -- `raise Exception("Empty response received")`, caught by `except Exception`
        if attempt < MAX_RETRIES - 1 then
          let r := runAttempts client (attempt + 1) rem
          ⟨r.retVal, r.calls + 1, 2 ^ attempt :: r.sleeps⟩
        else ⟨some unknownError_msg, 1, []⟩
      else ⟨some t, 1, []⟩
    | .resourceExhausted => ⟨some quota_msg, 1, []⟩
    | .apiError e =>
      if containsSubstring e "API key not valid" then ⟨some invalidKey_msg, 1, []⟩
      else if attempt < MAX_RETRIES - 1 then
        let r := runAttempts client (attempt + 1) rem
        ⟨r.retVal, r.calls + 1, 2 ^ attempt :: r.sleeps⟩
      else ⟨some techIssue_msg, 1, []⟩
    | .otherError =>
      if attempt < MAX_RETRIES - 1 then
        let r := runAttempts client (attempt + 1) rem
        ⟨r.retVal, r.calls + 1, 2 ^ attempt :: r.sleeps⟩
      else ⟨some unknownError_msg, 1, []⟩

/-- Full result of `generate_response_with_retry`: the returned string, the
number of underlying `generate_content` calls, and the backoff sleeps. -/
structure GenResult where
  text : String
  calls : Nat
  sleeps : List Nat
deriving DecidableEq, Repr

/-- Embedding of `generate_response_with_retry` (app.py lines 62-95).
`configured` is false when the global `model` is `None` (missing key or
failed configuration at startup). -/
def generate_response_with_retry (configured : Bool) (client : Nat → AttemptOutcome) :
    GenResult :=
  if !configured then ⟨configError_msg, 0, []⟩
  else
    let r := runAttempts client 0 MAX_RETRIES
    ⟨r.retVal.getD allFailed_msg, r.calls, r.sleeps⟩

/-- Default user name used when `query.from_user.first_name` is falsy (app.py line 116). -/
def defaultName : String := "ጌታዬ"

/-- Embedding of `user_name = query.from_user.first_name if ... else "ጌታዬ"`
(app.py line 116); a falsy (absent or empty) first name is modelled as `""`. -/
def displayName (first_name : String) : String :=
  if first_name = "" then defaultName else first_name

/-- Amharic welcome line (app.py line 122). -/
def welcome_am (user_name : String) : String :=
  "ሰላም 👋 " ++ user_name ++ "፣ እንኳን ወደ Tabor Systems Ai በደኅና መጡ።"

/-- Amharic main message sent after language selection (app.py line 123). -/
def mainMessage_am (user_name : String) : String :=
  welcome_am user_name ++
    "\n\nአሁን ማንኛውንም አይነት ጥያቄ መጠየቅ ይችላሉ። እኔ በTabor Systems የተገነባሁ ሲሆን በቴክኖሎጂ፣ በዌብ ዴቨሎፕመንት እና በኔትወርኪንግ ዙሪያ ልረዳዎ እችላለሁ።"

/-- Amharic label of the about button (app.py line 124). -/
def aboutBtn_am : String := "ℹ️ ስለ ቻናሉ"

/-- English welcome line (app.py line 127). -/
def welcome_en (user_name : String) : String :=
  "Hello 👋 " ++ user_name ++ ", welcome to Tabor Systems AI."

/-- English main message sent after language selection (app.py line 128). -/
def mainMessage_en (user_name : String) : String :=
  welcome_en user_name ++
    "\n\nYou can now ask me any question. I was built by Tabor Systems and can assist you with technology, web development, and networking topics."

/-- English label of the about button (app.py line 129). -/
def aboutBtn_en : String := "ℹ️ About Channel"

/-- Amharic about text (app.py line 142). -/
def about_am : String :=
  "የTabor Systems ቻናል በዋናነት የሚያተኩረው በ IT Support & Networking፣ Fullstack Web Development እና Database Administration ላይ ነው። መሪ ቃሉ፡ \x27ኑ አብረን እንማር!\x27 ነው\nተገንቢ፡ Tabor Systems"

/-- English about text (app.py line 144). -/
def about_en : String :=
  "Tabor Systems Channel focuses on IT Support & Networking, Fullstack Web Development, and Database Administration. Motto: \x27Come, let\x27s learn together!\x27\nBuilt by: Tabor Systems"

/-- An outbound chat message produced by a handler: `edit_message_text` with an
inline keyboard of `(label, callback_data)` buttons, or a plain `send_message`.
The unconditional `query.answer()` on app.py line 113 is an acknowledgement of
the callback query, not a chat message, and is not recorded here. -/
inductive Outbound where
  | editMessage (text : String) (buttons : List (String × String))
  | sendMessage (text : String)
deriving DecidableEq, Repr

/-- Embedding of `handle_callback` (app.py lines 111-146). The session is the
value of `context.user_data['lang']`, `none` when the key is absent. The result
is the session after the call together with the outbound chat messages sent. -/
def handle_callback (data : String) (first_name : String) (session : Option String) :
    Option String × List Outbound :=
  let user_name := displayName first_name
  if data = LANG_AMHARIC ∨ data = LANG_ENGLISH then
    let session2 : Option String := some data
    if data = LANG_AMHARIC then
      (session2, [.editMessage (mainMessage_am user_name) [(aboutBtn_am, ACTION_ABOUT)]])
    else
      (session2, [.editMessage (mainMessage_en user_name) [(aboutBtn_en, ACTION_ABOUT)]])
  else if data = ACTION_ABOUT then
    let lang := session.getD LANG_AMHARIC
    if lang = LANG_AMHARIC then (session, [.sendMessage about_am])
    else (session, [.sendMessage about_en])
  else (session, [])

/-- One inbound Telegram update, as dispatched by the registered handlers
(app.py lines 159-163): the `/start` command, a callback query carrying its
data and the user's first name, or a free-text message. -/
inductive TgUpdate where
  | startCmd (first_name : String)
  | callback (data : String) (first_name : String)
  | textMsg (text : String)
deriving DecidableEq, Repr

/-- Session-language effect of handling one update: `start` (app.py lines
98-109) and `handle_message` (lines 148-156) never assign to
`context.user_data`; only `handle_callback` can. -/
def sessionStep (session : Option String) (u : TgUpdate) : Option String :=
  match u with
  | .startCmd _ => session
  | .callback data first_name => (handle_callback data first_name session).1
  | .textMsg _ => session

/-- The stored session language is absent or one of the two valid codes. -/
def validLang (session : Option String) : Prop :=
  session = none ∨ session = some LANG_AMHARIC ∨ session = some LANG_ENGLISH

/-- Mock client that always reports quota exhaustion. -/
def quotaClient : Nat → AttemptOutcome := fun _ => .resourceExhausted

/-- Mock client that always fails with an invalid-credential APIError. -/
def invalidKeyClient : Nat → AttemptOutcome :=
  fun _ => .apiError "400 API key not valid. Please pass a valid API key."

/-- Mock client that always returns an empty text response. -/
def emptyClient : Nat → AttemptOutcome := fun _ => .success ""

/-- Mock client that fails twice with a generic APIError, then succeeds with "hi". -/
def flakyClient : Nat → AttemptOutcome :=
  fun n => if n < 2 then .apiError "backend overloaded" else .success "hi"

lemma runAttempts_retVal_ne_empty (client : Nat → AttemptOutcome) :
    ∀ rem attempt s, (runAttempts client attempt rem).retVal = some s → s ≠ "" := by
  intro rem
  induction rem with
  | zero => intro attempt s h; simp [runAttempts] at h
  | succ n ih =>
    intro attempt s h
    simp only [runAttempts] at h
    split at h
    · split at h
      · split at h
        · exact ih (attempt + 1) s h
        · simp only [Option.some.injEq] at h; subst h; decide
      · rename_i t ht
        simp only [Option.some.injEq] at h; subst h; exact ht
    · simp only [Option.some.injEq] at h; subst h; decide
    · split at h
      · simp only [Option.some.injEq] at h; subst h; decide
      · split at h
        · exact ih (attempt + 1) s h
        · simp only [Option.some.injEq] at h; subst h; decide
    · split at h
      · exact ih (attempt + 1) s h
      · simp only [Option.some.injEq] at h; subst h; decide

lemma runAttempts_retVal_isSome (client : Nat → AttemptOutcome) :
    ∀ rem attempt, attempt + rem = MAX_RETRIES → 1 ≤ rem →
      ((runAttempts client attempt rem).retVal).isSome = true := by
  intro rem
  induction rem with
  | zero => intro attempt h h1; omega
  | succ n ih =>
    intro attempt h _
    have hih : attempt < MAX_RETRIES - 1 →
        ((runAttempts client (attempt + 1) n).retVal).isSome = true := by
      intro hlt
      simp only [MAX_RETRIES] at hlt h
      exact ih (attempt + 1) (by simp only [MAX_RETRIES]; omega) (by omega)
    simp only [runAttempts]
    cases hc : client attempt with
    | success t =>
      dsimp only
      split_ifs with ht hlt
      · exact hih hlt
      · rfl
      · rfl
    | resourceExhausted => rfl
    | apiError e =>
      dsimp only
      split_ifs with hkey hlt
      · rfl
      · exact hih hlt
      · rfl
    | otherError =>
      dsimp only
      split_ifs with hlt
      · exact hih hlt
      · rfl

lemma runAttempts_calls_pos (client : Nat → AttemptOutcome) (rem attempt : Nat)
    (h : 1 ≤ rem) : 1 ≤ (runAttempts client attempt rem).calls := by
  cases rem with
  | zero => omega
  | succ n =>
    simp only [runAttempts]
    split <;> first
      | (split <;> first | (split <;> simp) | simp)
      | simp

lemma cons_sleep_step (attempt : Nat) (r : LoopResult) (hc : 1 ≤ r.calls)
    (hs : r.sleeps = (List.range (r.calls - 1)).map (fun i => 2 ^ (attempt + 1 + i))) :
    2 ^ attempt :: r.sleeps =
      (List.range (r.calls + 1 - 1)).map (fun i => 2 ^ (attempt + i)) := by
  obtain ⟨m, hm⟩ : ∃ m, r.calls = m + 1 := ⟨r.calls - 1, by omega⟩
  rw [hm] at hs
  rw [hs, hm]
  simp only [Nat.add_sub_cancel]
  rw [List.range_succ_eq_map, List.map_cons, List.map_map]
  have hf : ((fun i => 2 ^ (attempt + i)) ∘ Nat.succ) = fun i => 2 ^ (attempt + 1 + i) := by
    funext i
    simp only [Function.comp]
    congr 1
    omega
  rw [hf]
  simp

lemma runAttempts_sleeps_eq (client : Nat → AttemptOutcome) :
    ∀ rem attempt, attempt + rem = MAX_RETRIES →
      (runAttempts client attempt rem).sleeps =
        (List.range ((runAttempts client attempt rem).calls - 1)).map
          (fun i => 2 ^ (attempt + i)) := by
  intro rem
  induction rem with
  | zero => intro attempt h; simp [runAttempts]
  | succ n ih =>
    intro attempt h
    have hstep : ∀ hlt : attempt < MAX_RETRIES - 1,
        2 ^ attempt :: (runAttempts client (attempt + 1) n).sleeps =
          (List.range ((runAttempts client (attempt + 1) n).calls + 1 - 1)).map
            (fun i => 2 ^ (attempt + i)) := by
      intro hlt
      have hn : 1 ≤ n := by simp only [MAX_RETRIES] at hlt h; omega
      exact cons_sleep_step attempt _ (runAttempts_calls_pos client n (attempt + 1) hn)
        (ih (attempt + 1) (by omega))
    simp only [runAttempts]
    split
    · split
      · split
        · rename_i hlt; exact hstep hlt
        · simp
      · simp
    · simp
    · split
      · simp
      · split
        · rename_i hlt; exact hstep hlt
        · simp
    · split
      · rename_i hlt; exact hstep hlt
      · simp

lemma validLang_sessionStep (u : TgUpdate) (s : Option String) (h : validLang s) :
    validLang (sessionStep s u) := by
  cases u with
  | startCmd _ => exact h
  | textMsg _ => exact h
  | callback data first_name =>
    simp only [sessionStep, handle_callback, validLang]
    by_cases h1 : data = LANG_AMHARIC ∨ data = LANG_ENGLISH
    · rw [if_pos h1]
      by_cases h2 : data = LANG_AMHARIC
      · rw [if_pos h2]
        exact Or.inr (Or.inl (by rw [h2]))
      · rw [if_neg h2]
        exact Or.inr (Or.inr (by rw [h1.resolve_left h2]))
    · rw [if_neg h1]
      by_cases h4 : data = ACTION_ABOUT
      · rw [if_pos h4]
        by_cases h5 : s.getD LANG_AMHARIC = LANG_AMHARIC
        · rw [if_pos h5]; exact h
        · rw [if_neg h5]; exact h
      · rw [if_neg h4]; exact h

lemma validLang_foldl (us : List TgUpdate) :
    ∀ s, validLang s → validLang (us.foldl sessionStep s) := by
  induction us with
  | nil => intro s h; exact h
  | cons u rest ih => intro s h; exact ih _ (validLang_sessionStep u s h)

/-- C1: for every prompt (the prompt does not influence the control flow) and
every behavior of the underlying model client — success, empty text, quota
error, API error, any other exception, or the client never being configured —
`generate_response_with_retry` is a total function (it never raises) and its
returned string is non-empty. -/
theorem claim_C1_generate_total_nonempty (configured : Bool)
    (client : Nat → AttemptOutcome) :
    (generate_response_with_retry configured client).text ≠ "" := by
  cases configured with
  | false =>
    show configError_msg ≠ ""
    decide
  | true =>
    simp only [generate_response_with_retry, Bool.not_true, Bool.false_eq_true,
      if_false]
    cases hr : (runAttempts client 0 MAX_RETRIES).retVal with
    | none =>
      simp only [hr, Option.getD_none]
      decide
    | some s =>
      simp only [hr, Option.getD_some]
      exact runAttempts_retVal_ne_empty client MAX_RETRIES 0 s hr

/-- C2 counterexample: with a client that returns an empty text response on
every attempt, `generate_response_with_retry` does not return the generic
technical-issue fallback of the exhausted APIError path (app.py line 87); the
empty response is re-raised as a plain `Exception`, which is caught by the
final `except Exception` clause. -/
theorem claim_C2_counterexample :
    (generate_response_with_retry true emptyClient).text ≠ techIssue_msg := by
  decide

/-- C2 amended: if the model client returns an empty text response on every
attempt, `generate_response_with_retry` makes exactly `MAX_RETRIES` (3)
attempts, sleeping 1 and 2 units between them, and then returns the
unknown-error fallback (app.py line 94) — the fallback of the generic
`except Exception` path, not the technical-issue fallback of the APIError
path. -/
theorem claim_C2_empty_exhausts_to_unknown_fallback :
    generate_response_with_retry true emptyClient =
      ⟨unknownError_msg, 3, [1, 2]⟩ := by
  decide

/-- C3: for every client behavior, the backoff sleeps recorded by
`generate_response_with_retry` are exactly `2 ^ attempt` for each zero-based
attempt index `attempt` that was followed by a further attempt (so 1 then 2
units here, `MAX_RETRIES` being 3); in particular a client failing twice with
a generic APIError and then succeeding with "hi" yields "hi" after exactly 3
calls with the two increasing backoff delays 1 and 2. -/
theorem claim_C3_exponential_backoff (client : Nat → AttemptOutcome) :
    generate_response_with_retry true flakyClient = ⟨"hi", 3, [1, 2]⟩ ∧
      (generate_response_with_retry true client).sleeps =
        (List.range ((generate_response_with_retry true client).calls - 1)).map
          (fun i => 2 ^ i) := by
  refine ⟨by decide, ?_⟩
  have h := runAttempts_sleeps_eq client MAX_RETRIES 0 rfl
  simp only [generate_response_with_retry, Bool.not_true, Bool.false_eq_true,
    if_false]
  simpa using h

/-- C4: if the first call to the model client raises `ResourceExhaustedError`,
`generate_response_with_retry` returns the daily-limit fallback immediately:
exactly one underlying call, no retry, no backoff sleep. -/
theorem claim_C4_quota_immediate (client : Nat → AttemptOutcome)
    (h : client 0 = AttemptOutcome.resourceExhausted) :
    generate_response_with_retry true client = ⟨quota_msg, 1, []⟩ := by
  have hrun : runAttempts client 0 MAX_RETRIES = ⟨some quota_msg, 1, []⟩ := by
    show runAttempts client 0 (2 + 1) = _
    simp only [runAttempts, h]
  simp [generate_response_with_retry, hrun]

/-- C4 witness: the always-quota-exhausted mock client gets the quota fallback
after exactly one call and no sleep. -/
theorem claim_C4_quota_immediate_witness :
    generate_response_with_retry true quotaClient = ⟨quota_msg, 1, []⟩ :=
  claim_C4_quota_immediate quotaClient rfl

/-- C5: if the first call to the model client raises an `APIError` whose error
text contains "API key not valid", `generate_response_with_retry` returns the
invalid-key fallback immediately: exactly one underlying call, no retry, no
backoff sleep. -/
theorem claim_C5_invalid_key_immediate (client : Nat → AttemptOutcome)
    (e : String) (h : client 0 = AttemptOutcome.apiError e)
    (hkey : containsSubstring e "API key not valid" = true) :
    generate_response_with_retry true client = ⟨invalidKey_msg, 1, []⟩ := by
  have hrun : runAttempts client 0 MAX_RETRIES = ⟨some invalidKey_msg, 1, []⟩ := by
    show runAttempts client 0 (2 + 1) = _
    simp [runAttempts, h, hkey]
  simp [generate_response_with_retry, hrun]

/-- C5 witness: a mock client whose APIError text embeds "API key not valid"
gets the invalid-key fallback after exactly one call and no sleep. -/
theorem claim_C5_invalid_key_immediate_witness :
    generate_response_with_retry true invalidKeyClient = ⟨invalidKey_msg, 1, []⟩ :=
  claim_C5_invalid_key_immediate invalidKeyClient
    "400 API key not valid. Please pass a valid API key." rfl (by decide)

/-- C6: for every language code in `{LANG_AMHARIC, LANG_ENGLISH}` and every
identity, selecting that language via `handle_callback` and then requesting
the about text (for whatever first name the later update carries, over the
session the selection produced) yields the about text in the selected
language. -/
theorem claim_C6_language_selection_roundtrip (lang : String)
    (h : lang = LANG_AMHARIC ∨ lang = LANG_ENGLISH)
    (u1 u2 : String) (s : Option String) :
    (handle_callback ACTION_ABOUT u2 (handle_callback lang u1 s).1).2 =
      [Outbound.sendMessage (if lang = LANG_AMHARIC then about_am else about_en)] := by
  rcases h with h | h <;> subst h <;> rfl

/-- C6 witness: selecting English then asking for the about text yields the
English about message. -/
theorem claim_C6_language_selection_roundtrip_witness :
    (handle_callback ACTION_ABOUT "Bede" (handle_callback "EN" "Alem" none).1).2 =
      [Outbound.sendMessage (if "EN" = LANG_AMHARIC then about_am else about_en)] :=
  claim_C6_language_selection_roundtrip "EN" (Or.inr rfl) "Alem" "Bede" none

/-- C7: an about-request callback for an identity with no prior session entry
yields the Amharic about text (the default) and leaves the session untouched
(no language preference is created). -/
theorem claim_C7_about_defaults_to_amharic (first_name : String) :
    handle_callback ACTION_ABOUT first_name none =
      (none, [Outbound.sendMessage about_am]) := rfl

/-- C8: a callback whose code is none of `LANG_AMHARIC`, `LANG_ENGLISH`,
`ACTION_ABOUT` produces no outbound chat message and leaves the session
unchanged (the handler is total, so it cannot crash). -/
theorem claim_C8_unknown_callback_ignored (data first_name : String)
    (s : Option String) (h1 : data ≠ LANG_AMHARIC) (h2 : data ≠ LANG_ENGLISH)
    (h3 : data ≠ ACTION_ABOUT) :
    handle_callback data first_name s = (s, []) := by
  simp only [handle_callback]
  rw [if_neg (by rintro (h | h) <;> [exact h1 h; exact h2 h]), if_neg h3]

/-- C8 witness: the unrecognized code "LOL" produces no message and keeps the
stored language. -/
theorem claim_C8_unknown_callback_ignored_witness :
    handle_callback "LOL" "Alem" (some "EN") = (some "EN", []) :=
  claim_C8_unknown_callback_ignored "LOL" "Alem" (some "EN")
    (by decide) (by decide) (by decide)

/-- C9: with `MAX_RETRIES = 3` the defensive return after the retry loop
(app.py line 95) is unreachable — for every behavior of the model client, some
iteration of the loop executes a `return`, so `generate_response_with_retry`
never falls through to the final fallback. -/
theorem claim_C9_defensive_return_unreachable (client : Nat → AttemptOutcome) :
    (runAttempts client 0 MAX_RETRIES).retVal ≠ none := by
  have h := runAttempts_retVal_isSome client MAX_RETRIES 0 rfl (by decide)
  intro hn
  rw [hn] at h
  simp at h

/-- C10: the stored session language is always a valid code — starting from an
absent entry, after any sequence of handler invocations (start command,
callback, or free-text message) the stored value is either absent or one of
`LANG_AMHARIC`, `LANG_ENGLISH`; in particular `ACTION_ABOUT` is never stored
as a language. -/
theorem claim_C10_session_language_always_valid (us : List TgUpdate) :
    validLang (us.foldl sessionStep none) :=
  validLang_foldl us none (Or.inl rfl)

end ForBot
